import Mathlib

/-!
Verification development for the mail-assistant background agent runner.

We shallowly embed the Python sources:
  * `src/mail-assistant/tasks.py`   — the worker task `run_agent_background`
    together with its helpers (`write_agent_state`, `append_agent_log`,
    `run_tool_adapter`) and the two outbound HTTP calls, which we model as
    oracles;
  * `src/mail-assistant/server.py`  — the `/run` Flask endpoint;
  * `src/mail-assistant/app.py`     — the NDJSON-combining `call_ollama`.

JSON documents are represented by the inductive `Json`; the per-agent job
directory is a record `FS` tracking the four persisted artifacts; outbound
HTTP calls and the subprocess adapter are oracle functions collected in
`Oracles`, each returning `Except PyErr` to model a normal return versus a
raised Python exception.
-/

namespace MailAssistant

/-- A JSON value as produced by Python's `json.loads`.  Numbers are modelled
as integers (the repository only ever writes the integers 0 and 100 and
process return codes).  `null` doubles as Python `None`, exactly as
`json.loads` maps JSON `null` to `None`. -/
inductive Json where
  | null : Json
  | bool : Bool → Json
  | num : Int → Json
  | str : String → Json
  | arr : List Json → Json
  | obj : List (String × Json) → Json

/-- Python truthiness (`bool(x)`) of the Python value denoted by a `Json`:
`None`, `False`, `0`, `""`, `[]` and `{}` are falsy, everything else truthy. -/
def Json.truthy : Json → Bool
  | .null => false
  | .bool b => b
  | .num n => n != 0
  | .str s => s != ""
  | .arr xs => !xs.isEmpty
  | .obj kvs => !kvs.isEmpty

/-- Embeds `isinstance(x, dict)`. -/
def Json.isObj : Json → Bool
  | .obj _ => true
  | _ => false

/-- Association-list lookup for object members (our embedding of Python
dictionary access; the inputs in this development never carry duplicate
keys). -/
def jlookup : List (String × Json) → String → Option Json
  | [], _ => none
  | (k, v) :: rest, key => if k = key then some v else jlookup rest key

/-- Python `d.get(k)`: `None` when the key is absent. -/
def dictGet (kvs : List (String × Json)) (k : String) : Json :=
  (jlookup kvs k).getD .null

/-- Python `d.get(k, default)`: the default only when the key is absent. -/
def dictGetD (kvs : List (String × Json)) (k : String) (d : Json) : Json :=
  (jlookup kvs k).getD d

/-- Python's `or`: the first operand when truthy, otherwise the second. -/
def pyOr (a b : Json) : Json := if a.truthy then a else b

mutual
/-- Python `repr` of the value denoted by a `Json` (string escaping inside
containers is elided: the repository never builds prompts from containers
holding quote characters). -/
def pyRepr : Json → String
  | .null => "None"
  | .bool true => "True"
  | .bool false => "False"
  | .num n => toString n
  | .str s => "\x27" ++ s ++ "\x27"
  | .arr xs => "[" ++ pyReprList xs ++ "]"
  | .obj kvs => "\x7b" ++ pyReprObj kvs ++ "\x7d"

def pyReprList : List Json → String
  | [] => ""
  | [x] => pyRepr x
  | x :: y :: rest => pyRepr x ++ ", " ++ pyReprList (y :: rest)

def pyReprObj : List (String × Json) → String
  | [] => ""
  | [(k, v)] => "\x27" ++ k ++ "\x27: " ++ pyRepr v
  | (k, v) :: p :: rest => "\x27" ++ k ++ "\x27: " ++ pyRepr v ++ ", " ++ pyReprObj (p :: rest)
end

/-- Python `str` of the value denoted by a `Json` (as used by f-string
interpolation): identity on strings, `repr`-like on everything else. -/
def pyStr : Json → String
  | .str s => s
  | j => pyRepr j

mutual
/-- Python `json.dumps` with the default separators `", "` and `": "`
(string escaping is elided as in `pyRepr`; the error messages serialized in
this development contain no characters needing escapes). -/
def dumps : Json → String
  | .null => "null"
  | .bool true => "true"
  | .bool false => "false"
  | .num n => toString n
  | .str s => "\"" ++ s ++ "\""
  | .arr xs => "[" ++ dumpsList xs ++ "]"
  | .obj kvs => "\x7b" ++ dumpsObj kvs ++ "\x7d"

def dumpsList : List Json → String
  | [] => ""
  | [x] => dumps x
  | x :: y :: rest => dumps x ++ ", " ++ dumpsList (y :: rest)

def dumpsObj : List (String × Json) → String
  | [] => ""
  | [(k, v)] => "\"" ++ k ++ "\": " ++ dumps v
  | (k, v) :: p :: rest => "\"" ++ k ++ "\": " ++ dumps v ++ ", " ++ dumpsObj (p :: rest)
end

/-- A raised Python exception, tagged by its class and carrying `str(e)`. -/
inductive PyErr where
  | runtimeError : String → PyErr
  | fileNotFoundError : String → PyErr
  | valueError : String → PyErr
  | jsonDecodeError : String → PyErr
  | attributeError : String → PyErr
  | typeError : String → PyErr
  | other : String → PyErr
deriving DecidableEq

/-- Gives `str(e)` — the message of the exception. -/
def PyErr.msg : PyErr → String
  | .runtimeError m => m
  | .fileNotFoundError m => m
  | .valueError m => m
  | .jsonDecodeError m => m
  | .attributeError m => m
  | .typeError m => m
  | .other m => m

/-- The content of `input.json` as seen by `json.loads`: either a parse
failure (carrying the `JSONDecodeError` message) or a parsed document. -/
inductive JFile where
  | malformed : String → JFile
  | parsed : Json → JFile

/-- The per-agent job directory `PERSISTENT_DIR/agents/<id>`.

`tasks.py` never creates this directory (only `PERSISTENT_DIR/agents` is made
at import time), so `dirExists` is fixed for the whole run: when it is
`false`, every open/write of `log.txt`, `state.json` or `output.json` inside
it raises `FileNotFoundError`. -/
structure FS where
  dirExists : Bool
  input : Option JFile
  state : Option Json
  log : List String
  output : Option Json

/-- Result of `subprocess.run` on a tool adapter. -/
structure AdapterOut where
  returncode : Int
  stdout : String
  stderr : String

/-- The environment of a run: the wall clock (`time.asctime()`, taken as
constant across the run since no claim inspects timestamps) and the three
external effects — the LLM endpoint (`requests.post(.../api/generate)` +
`raise_for_status` + `resp.json()`), the workflow engine, and the
`/app/tools` adapter directory with subprocess execution.  Each call either
returns a Python value or raises. -/
structure Oracles where
  now : String
  ollama : Json → Except PyErr Json
  flowise : Json → Json → Except PyErr Json
  adapterExists : String → Bool
  adapterRun : String → Json → Except PyErr AdapterOut

/-- Embeds `tasks.py` line 38: `write_agent_state` writes `state.json` directly in
`agent_dir` (no `mkdir`), so it raises when the directory is missing. -/
def write_agent_state (fs : FS) (data : Json) : Except PyErr FS :=
  if fs.dirExists then .ok { fs with state := some data }
  else .error (.fileNotFoundError "No such file or directory: state.json")

/-- Embeds `tasks.py` line 41: `append_agent_log` opens `log.txt` for append (no
`mkdir`), writing `line.rstrip() + "\n"`. -/
def append_agent_log (fs : FS) (line : String) : Except PyErr FS :=
  if fs.dirExists then .ok { fs with log := fs.log ++ [line.trimRight] }
  else .error (.fileNotFoundError "No such file or directory: log.txt")

/-- Embeds `tasks.py` line 106: `(agent_dir / "output.json").write_text(...)`. -/
def write_output (fs : FS) (j : Json) : Except PyErr FS :=
  if fs.dirExists then .ok { fs with output := some j }
  else .error (.fileNotFoundError "No such file or directory: output.json")

/-- Embeds `tasks.py` lines 30-36: `call_flowise` raises `ValueError` on a falsy
`flow_id`, otherwise performs the HTTP call (the oracle). -/
def call_flowise (o : Oracles) (flow_id input_data : Json) : Except PyErr Json :=
  if !flow_id.truthy then .error (.valueError "flow_id required for call_flowise")
  else o.flowise flow_id input_data

/-- Embeds `tasks.py` lines 45-55: `run_tool_adapter`.  Building
`Path("/app/tools") / adapter_name` raises `TypeError` on a non-string name;
a missing adapter logs and raises `FileNotFoundError`; otherwise the
subprocess runs and its streams are returned as a dict. -/
def run_tool_adapter (o : Oracles) (adapter_name params : Json) (fs : FS) :
    (Except PyErr Json) × FS :=
  match adapter_name with
  | .str nm =>
    if o.adapterExists nm then
      match o.adapterRun nm params with
      | .ok r => (.ok (.obj [("returncode", .num r.returncode),
                             ("stdout", .str r.stdout), ("stderr", .str r.stderr)]), fs)
      | .error e => (.error e, fs)
    else
      match append_agent_log fs ("Adapter not found: " ++ nm) with
      | .ok fs1 => (.error (.fileNotFoundError ("Adapter not found: " ++ nm)), fs1)
      | .error e => (.error e, fs)
  | _ => (.error (.typeError "argument should be a str or an os.PathLike object"), fs)

/-- Embeds `tasks.py` lines 68-78: the optional workflow-engine step.  Returns the
`flow_out` value (`null` for Python `None` when no `flow_id` is given); a
workflow-engine exception is caught and recorded as `{"error": str(e)}`. -/
def flow_step (o : Oracles) (flow_id context : Json) (fs : FS) :
    (Except PyErr Json) × FS :=
  if flow_id.truthy then
    match append_agent_log fs ("[" ++ o.now ++ "] Calling Flowise flow " ++ pyStr flow_id) with
    | .error e => (.error e, fs)
    | .ok fs1 =>
      match call_flowise o flow_id context with
      | .ok fo =>
        match append_agent_log fs1 ("[" ++ o.now ++ "] Flowise responded") with
        | .ok fs2 => (.ok fo, fs2)
        | .error e =>
          -- the log failure is caught by the same `except`, whose own log
          -- append then decides the outcome
          match append_agent_log fs1 ("[" ++ o.now ++ "] Flowise failed: " ++ e.msg) with
          | .ok fs2 => (.ok (.obj [("error", .str e.msg)]), fs2)
          | .error e2 => (.error e2, fs1)
      | .error e =>
        match append_agent_log fs1 ("[" ++ o.now ++ "] Flowise failed: " ++ e.msg) with
        | .ok fs2 => (.ok (.obj [("error", .str e.msg)]), fs2)
        | .error e2 => (.error e2, fs1)
  else (.ok .null, fs)

/-- Embeds `tasks.py` lines 94-104: the optional tool-adapter step, acting on the
`out` dictionary.  `payload["tool"].get("name")` raises on a truthy
non-dict `tool` (outside the inner `try`); adapter failures inside the
`try` are caught and recorded as `adapter_error`. -/
def tool_step (o : Oracles) (tool : Json) (out0 : List (String × Json)) (fs : FS) :
    (Except PyErr (List (String × Json))) × FS :=
  if tool.truthy then
    match tool with
    | .obj tkvs =>
      let adapter := dictGet tkvs "name"
      let params := dictGetD tkvs "params" (.obj [])
      match append_agent_log fs ("[" ++ o.now ++ "] Running adapter " ++ pyStr adapter) with
      | .error e => (.error e, fs)
      | .ok fs1 =>
        match run_tool_adapter o adapter params fs1 with
        | (.ok rj, fs2) =>
          -- `out["adapter_result"]` is assigned before the success log; if
          -- that log raises, the `except` adds `adapter_error` on top
          match append_agent_log fs2 ("[" ++ o.now ++ "] Adapter finished rc=" ++
              pyStr (match rj with | .obj rkvs => dictGet rkvs "returncode" | _ => .null)) with
          | .ok fs3 => (.ok (out0 ++ [("adapter_result", rj)]), fs3)
          | .error e =>
            match append_agent_log fs2 ("[" ++ o.now ++ "] Adapter failed: " ++ e.msg) with
            | .ok fs3 => (.ok (out0 ++ [("adapter_result", rj), ("adapter_error", .str e.msg)]), fs3)
            | .error e2 => (.error e2, fs2)
        | (.error e, fs2) =>
          match append_agent_log fs2 ("[" ++ o.now ++ "] Adapter failed: " ++ e.msg) with
          | .ok fs3 => (.ok (out0 ++ [("adapter_error", .str e.msg)]), fs3)
          | .error e2 => (.error e2, fs2)
    | _ => (.error (.attributeError "object has no attribute get"), fs)
  else (.ok out0, fs)

/-- The `state.json` document written at the start of a run. -/
def runningState : Json := .obj [("status", .str "running"), ("progress", .num 0)]

/-- The `state.json` document written on completion. -/
def completedState : Json := .obj [("status", .str "completed"), ("progress", .num 100)]

/-- The `state.json` document written by the exception handler. -/
def failedState (m : String) : Json :=
  .obj [("status", .str "failed"), ("progress", .num 0), ("error", .str m)]

/-- The outcome of one run: the final directory contents, whether the
function returned or raised, every `state.json` document written during the
run (in order), and every prompt passed to the LLM endpoint. -/
structure RunResult where
  fs : FS
  outcome : Except PyErr Unit
  stateWrites : List Json
  llmPrompts : List Json

/-- Embeds `tasks.py` lines 86-108: the tail of the run after the LLM has answered
`gen` — the "Ollama responded" log, the `out` dictionary, the optional tool
step, `output.json`, the completed state, and the final log line.  Its
`stateWrites` are only its own (the caller prepends the running state). -/
def finish_run (o : Oracles) (kvs : List (String × Json)) (flow_out gen : Json)
    (fs : FS) : RunResult :=
  match append_agent_log fs ("[" ++ o.now ++ "] Ollama responded") with
  | .error e => ⟨fs, .error e, [], []⟩
  | .ok fse =>
  match tool_step o (dictGet kvs "tool")
      [("model_response", gen), ("flowise", flow_out), ("completed_at", .str o.now)] fse with
  | (.error e, fsf) => ⟨fsf, .error e, [], []⟩
  | (.ok outKvs, fsf) =>
  match write_output fsf (.obj outKvs) with
  | .error e => ⟨fsf, .error e, [], []⟩
  | .ok fsg =>
  match write_agent_state fsg completedState with
  | .error e => ⟨fsg, .error e, [], []⟩
  | .ok fsh =>
  match append_agent_log fsh ("[" ++ o.now ++ "] Agent completed") with
  | .error e => ⟨fsh, .error e, [completedState], []⟩
  | .ok fsi => ⟨fsi, .ok (), [completedState], []⟩

/-- Embeds `tasks.py` lines 80-108: prompt construction (`payload.get("prompt") or
payload.get("task") or "No task provided"`, with the workflow context
appended when `flow_out` is a truthy dict), the LLM call, and the tail. -/
def llm_and_finish (o : Oracles) (kvs : List (String × Json)) (flow_out : Json)
    (fs : FS) : RunResult :=
  let prompt0 := pyOr (dictGet kvs "prompt") (pyOr (dictGet kvs "task") (.str "No task provided"))
  let promptSent :=
    if flow_out.truthy && flow_out.isObj then
      Json.str (pyStr prompt0 ++ "\n\nFlowise output context:\n" ++ dumps flow_out)
    else prompt0
  match append_agent_log fs ("[" ++ o.now ++ "] Calling Ollama") with
  | .error e => ⟨fs, .error e, [], []⟩
  | .ok fsd =>
  match o.ollama promptSent with
  | .error e => ⟨fsd, .error e, [], [promptSent]⟩
  | .ok gen =>
    let r := finish_run o kvs flow_out gen fsd
    ⟨r.fs, r.outcome, r.stateWrites, promptSent :: r.llmPrompts⟩

/-- Embeds `tasks.py` lines 59-108: the body of the `try` in
`run_agent_background`, before the exception handler. -/
def run_body (o : Oracles) (agent_id : String) (fs : FS) : RunResult :=
  match append_agent_log fs ("[" ++ o.now ++ "] Agent started") with
  | .error e => ⟨fs, .error e, [], []⟩
  | .ok fsa =>
  match write_agent_state fsa runningState with
  | .error e => ⟨fsa, .error e, [], []⟩
  | .ok fsb =>
  match fsb.input with
  | none => ⟨fsb, .error (.runtimeError ("input.json missing for agent " ++ agent_id)),
             [runningState], []⟩
  | some (.malformed m) => ⟨fsb, .error (.jsonDecodeError m), [runningState], []⟩
  | some (.parsed payload) =>
  match payload with
  | .obj kvs =>
    match flow_step o (dictGet kvs "flow_id") (dictGetD kvs "context" (.obj [])) fsb with
    | (.error e, fsc) => ⟨fsc, .error e, [runningState], []⟩
    | (.ok flow_out, fsc) =>
      let r := llm_and_finish o kvs flow_out fsc
      ⟨r.fs, r.outcome, runningState :: r.stateWrites, r.llmPrompts⟩
  | _ => ⟨fsb, .error (.attributeError "object has no attribute get"), [runningState], []⟩

/-- Embeds `tasks.py` lines 57-112: `run_agent_background` — the `try` body wrapped
in the handler that writes the failed state (itself unprotected: if that
write raises, its exception replaces the original and the failure log is
skipped), appends the failure log, and re-raises. -/
def run_agent_background (o : Oracles) (agent_id : String) (fs : FS) : RunResult :=
  let r := run_body o agent_id fs
  match r.outcome with
  | .ok _ => r
  | .error e =>
    match write_agent_state r.fs (failedState e.msg) with
    | .error e2 => { r with outcome := .error e2 }
    | .ok fs1 =>
      match append_agent_log fs1 ("[" ++ o.now ++ "] Agent failed: " ++ e.msg) with
      | .error e3 => ⟨fs1, .error e3, r.stateWrites ++ [failedState e.msg], r.llmPrompts⟩
      | .ok fs2 => ⟨fs2, .error e, r.stateWrites ++ [failedState e.msg], r.llmPrompts⟩

/-- The invariant claimed for every `state.json` document the runner writes:
a `status` among `running`/`completed`/`failed`, a binary `progress` that is
100 exactly when the status is `completed`, and an `error` member only on
failure. -/
def stateWriteOk (j : Json) : Bool :=
  match j with
  | .obj kvs =>
    match jlookup kvs "status", jlookup kvs "progress" with
    | some (.str s), some (.num p) =>
      (s == "running" || s == "completed" || s == "failed") &&
      (p == 0 || p == 100) &&
      ((p == 100) == (s == "completed")) &&
      (!(jlookup kvs "error").isSome || s == "failed")
    | _, _ => false
  | _ => false

/-- An HTTP response from the Flask endpoint: a status code with a JSON
body, or an unhandled exception surfacing as a server error. -/
inductive HttpResult where
  | resp : Nat → Json → HttpResult
  | serverError : String → HttpResult

/-- Embeds `server.py` lines 15-29: the `/run` handler.  `request.get_json(silent=True)
or {}` supplies an empty dict for an unparseable or falsy body; a falsy
`agent_id` yields 400; otherwise the runner is spawned on a detached daemon
thread and `202` is returned immediately, so the response never depends on
the run itself (which is why it takes no `Oracles`/`FS`). -/
def server_run_agent (reqBody : Option Json) : HttpResult :=
  let data := match reqBody with
    | some j => if j.truthy then j else Json.obj []
    | none => Json.obj []
  match data with
  | .obj kvs =>
    let agent_id := dictGet kvs "agent_id"
    if !agent_id.truthy then .resp 400 (.obj [("error", .str "agent_id required")])
    else .resp 202 (.obj [("status", .str "started"), ("agent_id", agent_id)])
  | _ => .serverError "AttributeError: object has no attribute get"

/-- One received NDJSON stream line in `app.py` `call_ollama`: the raw
decoded text from `iter_lines` paired with the result of `json.loads` on it
(`none` when loading raises). -/
def linePieces : String × Option Json → List String
  | (raw, pr) =>
    if raw = "" then []          -- `if not raw: continue`
    else
      match pr with
      | none => [raw]            -- json.loads raised: `parts.append(raw)`
      | some j =>
        match j with
        | .obj kvs =>
          match jlookup kvs "response" with
          | some (.str s) => [s] -- `if isinstance(chunk, str): parts.append(chunk)`
          | _ => []              -- chunk is None or not a str: nothing appended
        | _ => [raw]             -- `obj.get` raises AttributeError, caught: raw appended

/-- Embeds `app.py` lines 42-55: the `combined` text assembled from the streamed
NDJSON lines by `call_ollama`. -/
def ndjson_combined (lines : List (String × Option Json)) : String :=
  String.join (lines.flatMap linePieces)

/-- Embeds `app.py` line 56: the value `call_ollama` returns in the streaming
branch. -/
def call_ollama_stream (model : String) (lines : List (String × Option Json)) : Json :=
  .obj [("model", .str model), ("text", .str (ndjson_combined lines))]

/-- The `response` string fields of the parsed lines, in order (the spec's
description of what is concatenated). -/
def responseChunks (lines : List (String × Option Json)) : List String :=
  lines.flatMap fun l =>
    match l.2 with
    | some (.obj kvs) =>
      match jlookup kvs "response" with
      | some (.str s) => [s]
      | _ => []
    | _ => []

/-- Raw text of the NDJSON line `{"response":"Hel"}`. -/
def rawHel : String := "\x7b\"response\":\"Hel\"\x7d"

/-- Raw text of the NDJSON line `{"response":"lo"}`. -/
def rawLo : String := "\x7b\"response\":\"lo\"\x7d"

/-- A job directory holding a valid `input.json` whose only member is a
prompt string — a concrete fixture for witnesses. -/
def fsPromptOnly : FS :=
  { dirExists := true
    input := some (.parsed (.obj [("prompt", .str "summarize the inbox")]))
    state := none, log := [], output := none }

/-- A job directory with no `input.json`. -/
def fsNoInput : FS :=
  { dirExists := true, input := none, state := none, log := [], output := none }

/-- A job directory that does not exist at all. -/
def fsNoDir : FS :=
  { dirExists := false, input := none, state := none, log := [], output := none }

/-- An environment whose LLM endpoint answers normally and whose workflow
engine and adapters are never reached — a concrete fixture for witnesses. -/
def oraclesOk : Oracles :=
  { now := "Mon Jan  1 00:00:00 2024"
    ollama := fun _ => .ok (.str "done")
    flowise := fun _ _ => .ok .null
    adapterExists := fun _ => false
    adapterRun := fun _ _ => .ok ⟨0, "", ""⟩ }

/-- An environment whose workflow engine raises (connection refused) and
whose LLM endpoint answers normally. -/
def oraclesFlowDown : Oracles :=
  { now := "Mon Jan  1 00:00:00 2024"
    ollama := fun _ => .ok (.str "done")
    flowise := fun _ _ => .error (.other "connection refused")
    adapterExists := fun _ => false
    adapterRun := fun _ _ => .ok ⟨0, "", ""⟩ }

/-- A job directory whose `input.json` requests the flow `f1`. -/
def fsFlow : FS :=
  { dirExists := true
    input := some (.parsed (.obj [("prompt", .str "triage"), ("flow_id", .str "f1")]))
    state := none, log := [], output := none }

/-- A job directory whose `input.json` requests the tool adapter `mailer`. -/
def fsTool : FS :=
  { dirExists := true
    input := some (.parsed (.obj [("prompt", .str "send"),
      ("tool", .obj [("name", .str "mailer")])]))
    state := none, log := [], output := none }

/-! ### Infrastructure lemmas -/

lemma append_agent_log_ok (fs : FS) (line : String) (h : fs.dirExists = true) :
    append_agent_log fs line = .ok { fs with log := fs.log ++ [line.trimRight] } := by
  simp [append_agent_log, h]

lemma write_agent_state_ok (fs : FS) (d : Json) (h : fs.dirExists = true) :
    write_agent_state fs d = .ok { fs with state := some d } := by
  simp [write_agent_state, h]

lemma write_output_ok (fs : FS) (j : Json) (h : fs.dirExists = true) :
    write_output fs j = .ok { fs with output := some j } := by
  simp [write_output, h]

/-- Shows `run_tool_adapter` touches at most the log. -/
lemma run_tool_adapter_frame_proj (o : Oracles) (n p : Json) (fs : FS) :
    (run_tool_adapter o n p fs).2.dirExists = fs.dirExists ∧
    (run_tool_adapter o n p fs).2.state = fs.state ∧
    (run_tool_adapter o n p fs).2.input = fs.input ∧
    (run_tool_adapter o n p fs).2.output = fs.output := by
  unfold run_tool_adapter
  rcases n with _ | b | i | nm | xs | kvs <;> try simp
  rcases hex : o.adapterExists nm
  · rcases hdir : fs.dirExists <;> simp [append_agent_log, hdir, hex]
  · rcases hr : o.adapterRun nm p with e | r <;> simp [hex, hr]

lemma run_tool_adapter_frame {o : Oracles} {n p : Json} {fs : FS}
    {res : Except PyErr Json} {fs2 : FS}
    (h : run_tool_adapter o n p fs = (res, fs2)) :
    fs2.dirExists = fs.dirExists ∧ fs2.state = fs.state ∧
    fs2.input = fs.input ∧ fs2.output = fs.output := by
  have h2 := run_tool_adapter_frame_proj o n p fs
  rw [h] at h2
  exact h2

/-- Shows `flow_step` touches at most the log. -/
lemma flow_step_frame_proj (o : Oracles) (a c : Json) (fs : FS) :
    (flow_step o a c fs).2.dirExists = fs.dirExists ∧
    (flow_step o a c fs).2.state = fs.state ∧
    (flow_step o a c fs).2.input = fs.input ∧
    (flow_step o a c fs).2.output = fs.output := by
  unfold flow_step call_flowise
  rcases ht : a.truthy
  · simp [ht]
  · rcases hdir : fs.dirExists <;>
      simp [append_agent_log, hdir, ht] <;>
      rcases o.flowise a c with e | j <;> simp [append_agent_log, hdir]

lemma flow_step_frame {o : Oracles} {a c : Json} {fs : FS}
    {res : Except PyErr Json} {fs2 : FS}
    (h : flow_step o a c fs = (res, fs2)) :
    fs2.dirExists = fs.dirExists ∧ fs2.state = fs.state ∧
    fs2.input = fs.input ∧ fs2.output = fs.output := by
  have h2 := flow_step_frame_proj o a c fs
  rw [h] at h2
  exact h2

/-- When the job directory exists, `flow_step` never raises: a truthy
`flow_id` with a failing workflow engine still returns normally. -/
lemma flow_step_total (o : Oracles) (a c : Json) (fs : FS) (hdir : fs.dirExists = true) :
    ∃ fo fs2, flow_step o a c fs = (.ok fo, fs2) := by
  unfold flow_step call_flowise
  rcases ht : a.truthy
  · simp [ht]
  · simp [append_agent_log, hdir, ht]
    rcases o.flowise a c with e | j <;> simp [append_agent_log, hdir]

/-- Shows `tool_step` touches at most the log; a returned `out` dictionary is the
base dictionary possibly extended with exactly one of `adapter_result` or
`adapter_error`; and on an existing directory with a well-formed (absent,
falsy, or dict) `tool` member it never raises. -/
lemma tool_step_spec (o : Oracles) (t : Json) (out0 : List (String × Json)) (fs : FS) :
    (tool_step o t out0 fs).2.dirExists = fs.dirExists ∧
    (tool_step o t out0 fs).2.state = fs.state ∧
    (tool_step o t out0 fs).2.input = fs.input ∧
    (tool_step o t out0 fs).2.output = fs.output ∧
    (∀ kv, (tool_step o t out0 fs).1 = .ok kv →
      kv = out0 ∨ (∃ rj, kv = out0 ++ [("adapter_result", rj)]) ∨
      (∃ m, kv = out0 ++ [("adapter_error", Json.str m)])) ∧
    (fs.dirExists = true → t.truthy = false ∨ t.isObj = true →
      ∃ kv, (tool_step o t out0 fs).1 = .ok kv) := by
  unfold tool_step
  rcases ht : t.truthy
  · simp [ht]
  · rcases t with _ | b | i | s | xs | tkvs <;> simp [ht, Json.isObj]
    rcases hdir : fs.dirExists <;> simp [append_agent_log, hdir]
    split
    next rj fs2 heq =>
      obtain ⟨hd, hs, hi, ho⟩ := run_tool_adapter_frame heq
      simp at hd
      simp [append_agent_log, hd, hdir, hs, hi, ho]
    next e fs2 heq =>
      obtain ⟨hd, hs, hi, ho⟩ := run_tool_adapter_frame heq
      simp at hd
      simp [append_agent_log, hd, hdir, hs, hi, ho]

lemma tool_step_eq_spec {o : Oracles} {t : Json} {out0 : List (String × Json)} {fs : FS}
    {res : Except PyErr (List (String × Json))} {fs2 : FS}
    (h : tool_step o t out0 fs = (res, fs2)) :
    fs2.dirExists = fs.dirExists ∧ fs2.state = fs.state ∧
    fs2.input = fs.input ∧ fs2.output = fs.output ∧
    (∀ kv, res = .ok kv →
      kv = out0 ∨ (∃ rj, kv = out0 ++ [("adapter_result", rj)]) ∨
      (∃ m, kv = out0 ++ [("adapter_error", Json.str m)])) ∧
    (fs.dirExists = true → t.truthy = false ∨ t.isObj = true → ∃ kv, res = .ok kv) := by
  have h2 := tool_step_spec o t out0 fs
  rw [h] at h2
  exact h2

/-- The tail of a run: frame conditions, the possible state writes, the
untouched `output.json` on failure, and the written `out` document — with
its `completed` state — on success; on an existing directory with a
well-formed `tool` member the tail always succeeds. -/
lemma finish_run_spec (o : Oracles) (kvs : List (String × Json)) (flow_out gen : Json) (fs : FS) :
    (finish_run o kvs flow_out gen fs).fs.dirExists = fs.dirExists ∧
    (finish_run o kvs flow_out gen fs).fs.input = fs.input ∧
    ((finish_run o kvs flow_out gen fs).stateWrites = [] ∨
      (finish_run o kvs flow_out gen fs).stateWrites = [completedState]) ∧
    (∀ e, (finish_run o kvs flow_out gen fs).outcome = .error e →
      (finish_run o kvs flow_out gen fs).fs.output = fs.output) ∧
    ((finish_run o kvs flow_out gen fs).outcome = .ok () →
      (finish_run o kvs flow_out gen fs).fs.state = some completedState ∧
      ∃ kv, (finish_run o kvs flow_out gen fs).fs.output = some (.obj kv) ∧
        (kv = [("model_response", gen), ("flowise", flow_out), ("completed_at", .str o.now)] ∨
         (∃ rj, kv = [("model_response", gen), ("flowise", flow_out), ("completed_at", .str o.now),
            ("adapter_result", rj)]) ∨
         (∃ m, kv = [("model_response", gen), ("flowise", flow_out), ("completed_at", .str o.now),
            ("adapter_error", Json.str m)]))) ∧
    (fs.dirExists = true →
      (dictGet kvs "tool").truthy = false ∨ (dictGet kvs "tool").isObj = true →
      (finish_run o kvs flow_out gen fs).outcome = .ok ()) := by
  unfold finish_run
  rcases hdir : fs.dirExists
  · simp [append_agent_log, hdir]
  · simp [append_agent_log, hdir]
    split
    next e fsf heq =>
      obtain ⟨hd, hs, hi, ho, -, htot⟩ := tool_step_eq_spec heq
      simp at hd hs hi ho
      simp [hd, hs, hi, ho, hdir]
      constructor
      · by_contra hc
        obtain ⟨kv, hkv⟩ := htot rfl (Or.inl (by simpa using hc))
        simp at hkv
      · by_contra hc
        obtain ⟨kv, hkv⟩ := htot rfl (Or.inr (by simpa using hc))
        simp at hkv
    next outKvs fsf heq =>
      obtain ⟨hd, hs, hi, ho, hshape, -⟩ := tool_step_eq_spec heq
      simp at hd hs hi ho
      simp [write_output, write_agent_state, append_agent_log, hd, hs, hi, ho, hdir]
      simpa using hshape outKvs rfl

lemma append_agent_log_ok_iff {fs : FS} {l : String} {fs2 : FS}
    (h : append_agent_log fs l = .ok fs2) :
    fs.dirExists = true ∧ fs2 = { fs with log := fs.log ++ [l.trimRight] } := by
  revert h
  unfold append_agent_log
  rcases hdir : fs.dirExists <;> simp [hdir]
  exact fun h => h.symm

lemma append_agent_log_err {fs : FS} {l : String} {e : PyErr}
    (h : append_agent_log fs l = .error e) : fs.dirExists = false := by
  revert h
  unfold append_agent_log
  rcases hdir : fs.dirExists <;> simp [hdir]

lemma write_agent_state_err {fs : FS} {d : Json} {e : PyErr}
    (h : write_agent_state fs d = .error e) : fs.dirExists = false := by
  revert h
  unfold write_agent_state
  rcases hdir : fs.dirExists <;> simp [hdir]

lemma write_agent_state_ok_iff {fs : FS} {d : Json} {fs2 : FS}
    (h : write_agent_state fs d = .ok fs2) :
    fs.dirExists = true ∧ fs2 = { fs with state := some d } := by
  revert h
  unfold write_agent_state
  rcases hdir : fs.dirExists <;> simp [hdir]
  exact fun h => h.symm

lemma write_output_ok_iff {fs : FS} {j : Json} {fs2 : FS}
    (h : write_output fs j = .ok fs2) :
    fs.dirExists = true ∧ fs2 = { fs with output := some j } := by
  revert h
  unfold write_output
  rcases hdir : fs.dirExists <;> simp [hdir]
  exact fun h => h.symm

/-- The tail never calls the LLM again. -/
lemma finish_run_llmPrompts (o : Oracles) (kvs : List (String × Json))
    (flow_out gen : Json) (fs : FS) :
    (finish_run o kvs flow_out gen fs).llmPrompts = [] := by
  unfold finish_run
  rcases hdir : fs.dirExists <;> simp [append_agent_log, hdir]
  split <;>
    rename_i heq
  · simp
  · obtain ⟨hd, -, -, -, -, -⟩ := tool_step_eq_spec heq
    simp at hd
    simp [write_output, write_agent_state, append_agent_log, hd]

/-- The LLM-and-tail stage: frame conditions, its state writes, the
untouched `output.json` on failure, the completed state and written output
on success, and success itself when the directory exists, the `tool` member
is well formed and the LLM answers. -/
lemma llm_and_finish_spec (o : Oracles) (kvs : List (String × Json)) (flow_out : Json) (fs : FS) :
    (llm_and_finish o kvs flow_out fs).fs.dirExists = fs.dirExists ∧
    (llm_and_finish o kvs flow_out fs).fs.input = fs.input ∧
    ((llm_and_finish o kvs flow_out fs).stateWrites = [] ∨
      (llm_and_finish o kvs flow_out fs).stateWrites = [completedState]) ∧
    (∀ e, (llm_and_finish o kvs flow_out fs).outcome = .error e →
      (llm_and_finish o kvs flow_out fs).fs.output = fs.output) ∧
    ((llm_and_finish o kvs flow_out fs).outcome = .ok () →
      (llm_and_finish o kvs flow_out fs).fs.state = some completedState ∧
      ∃ gen kv, (llm_and_finish o kvs flow_out fs).fs.output = some (.obj kv) ∧
        (kv = [("model_response", gen), ("flowise", flow_out), ("completed_at", .str o.now)] ∨
         (∃ rj, kv = [("model_response", gen), ("flowise", flow_out), ("completed_at", .str o.now),
            ("adapter_result", rj)]) ∨
         (∃ m, kv = [("model_response", gen), ("flowise", flow_out), ("completed_at", .str o.now),
            ("adapter_error", Json.str m)]))) ∧
    (fs.dirExists = true →
      (dictGet kvs "tool").truthy = false ∨ (dictGet kvs "tool").isObj = true →
      ∀ gf : Json → Json, (∀ q, o.ollama q = .ok (gf q)) →
      (llm_and_finish o kvs flow_out fs).outcome = .ok ()) := by
  unfold llm_and_finish
  split <;>
  (first
  | (split
     next e heq =>
       have hdir := append_agent_log_err heq
       simp [hdir]
     next fsd heq =>
       obtain ⟨hdir, hfsd⟩ := append_agent_log_ok_iff heq
       have hd : fsd.dirExists = true := by rw [hfsd]; simpa using hdir
       have hin : fsd.input = fs.input := by rw [hfsd]
       have hout : fsd.output = fs.output := by rw [hfsd]
       dsimp only
       split
       next e heq2 =>
         refine ⟨by simp [hd, hdir], by simp [hin], by simp, ?_, by simp, ?_⟩
         · intro e2 he2
           simp [hout]
         · intro _ htool gf hgf
           rw [hgf] at heq2
           simp at heq2
       next gen heq2 =>
         obtain ⟨f1, f2, f3, f4, f5, f6⟩ := finish_run_spec o kvs flow_out gen fsd
         refine ⟨by simp [f1, hd, hdir], by simp [f2, hin], by simpa using f3, ?_, ?_, ?_⟩
         · intro e he
           have := f4 e (by simpa using he)
           simpa [hout] using this
         · intro hok
           obtain ⟨hst, kv, hou, hsh⟩ := f5 (by simpa using hok)
           exact ⟨by simpa using hst, gen, kv, by simpa using hou, hsh⟩
         · intro _ htool gf hgf
           simpa using f6 hd htool))

/-- The `try` body: frame conditions, possible state writes, the untouched
`output.json` on failure, and the completed state with the written output
document on success. -/
lemma run_body_spec (o : Oracles) (a : String) (fs : FS) :
    (run_body o a fs).fs.dirExists = fs.dirExists ∧
    (run_body o a fs).fs.input = fs.input ∧
    ((run_body o a fs).stateWrites = [] ∨ (run_body o a fs).stateWrites = [runningState] ∨
      (run_body o a fs).stateWrites = [runningState, completedState]) ∧
    (∀ e, (run_body o a fs).outcome = .error e → (run_body o a fs).fs.output = fs.output) ∧
    ((run_body o a fs).outcome = .ok () →
      (run_body o a fs).fs.state = some completedState ∧
      ∃ gen fo kv, (run_body o a fs).fs.output = some (.obj kv) ∧
        (kv = [("model_response", gen), ("flowise", fo), ("completed_at", .str o.now)] ∨
         (∃ rj, kv = [("model_response", gen), ("flowise", fo), ("completed_at", .str o.now),
            ("adapter_result", rj)]) ∨
         (∃ m, kv = [("model_response", gen), ("flowise", fo), ("completed_at", .str o.now),
            ("adapter_error", Json.str m)]))) := by
  unfold run_body
  split
  next e heq => simp
  next fsa heq =>
    obtain ⟨hdir, hfsa⟩ := append_agent_log_ok_iff heq
    split
    next e heq2 =>
      have hcontra := write_agent_state_err heq2
      rw [hfsa] at hcontra
      simp [hdir] at hcontra
    next fsb heq2 =>
      obtain ⟨-, hfsb⟩ := write_agent_state_ok_iff heq2
      have hbd : fsb.dirExists = true := by rw [hfsb, hfsa]; simpa using hdir
      have hbin : fsb.input = fs.input := by rw [hfsb, hfsa]
      have hbout : fsb.output = fs.output := by rw [hfsb, hfsa]
      rcases hin : fsb.input with _ | jf
      · simp [hbd, hdir, hbin, hbout, hin]
      rcases jf with m | payload
      · simp [hbd, hdir, hbin, hbout, hin]
      rcases payload with _ | b | i | s | xs | kvs <;>
        try simp [hbd, hdir, hbin, hbout, hin]
      split
      next e fsc heqf =>
        obtain ⟨fd, fst2, fin2, fout2⟩ := flow_step_frame heqf
        simp [fd, fin2, fout2, hbd, hdir, hbin, hbout]
      next flow_out fsc heqf =>
        obtain ⟨fd, fst2, fin2, fout2⟩ := flow_step_frame heqf
        obtain ⟨l1, l2, l3, l4, l5⟩ := llm_and_finish_spec o kvs flow_out fsc
        refine ⟨by simp [l1, fd, hbd, hdir], by simp [l2, fin2, hbin], ?_, ?_, ?_⟩
        · rcases l3 with h3 | h3 <;> simp [h3]
        · intro e he
          have := l4 e (by simpa using he)
          simp [this, fout2, hbout]
        · intro hok
          obtain ⟨hst, gen, kv, hou, hsh⟩ := l5.1 (by simpa using hok)
          exact ⟨by simpa using hst, gen, flow_out, kv, by simpa using hou, hsh⟩

/-- The whole runner: the job's `input.json` is never touched; every state
write is the running, completed, or a failed document; a failing run leaves
`output.json` as it was; a returning run has written the completed state and
the output document; and on an existing directory every failure ends with
`state.json` holding the failed document carrying the exception message. -/
lemma run_agent_background_spec (o : Oracles) (a : String) (fs : FS) :
    (run_agent_background o a fs).fs.input = fs.input ∧
    (∀ j ∈ (run_agent_background o a fs).stateWrites,
      j = runningState ∨ j = completedState ∨ ∃ m, j = failedState m) ∧
    (∀ e, (run_agent_background o a fs).outcome = .error e →
      (run_agent_background o a fs).fs.output = fs.output) ∧
    ((run_agent_background o a fs).outcome = .ok () →
      (run_agent_background o a fs).fs.state = some completedState ∧
      ∃ gen fo kv, (run_agent_background o a fs).fs.output = some (.obj kv) ∧
        (kv = [("model_response", gen), ("flowise", fo), ("completed_at", .str o.now)] ∨
         (∃ rj, kv = [("model_response", gen), ("flowise", fo), ("completed_at", .str o.now),
            ("adapter_result", rj)]) ∨
         (∃ m, kv = [("model_response", gen), ("flowise", fo), ("completed_at", .str o.now),
            ("adapter_error", Json.str m)]))) ∧
    (fs.dirExists = true → ∀ e, (run_agent_background o a fs).outcome = .error e →
      (run_agent_background o a fs).fs.state = some (failedState e.msg)) := by
  obtain ⟨b1, b2, b3, b4, b5⟩ := run_body_spec o a fs
  unfold run_agent_background
  dsimp only
  split
  next u heq =>
    refine ⟨b2, ?_, ?_, fun _ => b5 (by simpa using heq), ?_⟩
    · intro j hj
      rcases b3 with h3 | h3 | h3 <;> rw [h3] at hj <;> simp at hj <;>
        first
        | (exact Or.inl hj)
        | (rcases hj with hj | hj
           · exact Or.inl hj
           · exact Or.inr (Or.inl hj))
    · intro e he
      rw [heq] at he
      simp at he
    · intro _ e he
      rw [heq] at he
      simp at he
  next e heq =>
    split
    next e2 heq2 =>
      have hcontra := write_agent_state_err heq2
      refine ⟨b2, ?_, ?_, ?_, ?_⟩
      · intro j hj
        rcases b3 with h3 | h3 | h3 <;> rw [h3] at hj <;> simp at hj <;>
          first
          | (exact Or.inl hj)
          | (rcases hj with hj | hj
             · exact Or.inl hj
             · exact Or.inr (Or.inl hj))
      · intro e' he'
        exact b4 e heq
      · intro hok
        simp at hok
      · intro hdir
        rw [b1] at hcontra
        rw [hdir] at hcontra
        simp at hcontra
    next fs1 heq2 =>
      obtain ⟨hd1, hfs1⟩ := write_agent_state_ok_iff heq2
      split
      next e3 heq3 =>
        have hcontra := append_agent_log_err heq3
        rw [hfs1] at hcontra
        simp [hd1] at hcontra
      next fs2 heq3 =>
        obtain ⟨-, hfs2⟩ := append_agent_log_ok_iff heq3
        have h2in : fs2.input = fs.input := by rw [hfs2, hfs1]; simpa using b2
        have h2out : fs2.output = (run_body o a fs).fs.output := by rw [hfs2, hfs1]
        have h2st : fs2.state = some (failedState e.msg) := by rw [hfs2, hfs1]
        refine ⟨h2in, ?_, ?_, ?_, ?_⟩
        · intro j hj
          simp at hj
          rcases hj with hj | hj
          · rcases b3 with h3 | h3 | h3 <;> rw [h3] at hj <;> simp at hj <;>
              first
              | (exact Or.inl hj)
              | (rcases hj with hj | hj
                 · exact Or.inl hj
                 · exact Or.inr (Or.inl hj))
          · exact Or.inr (Or.inr ⟨e.msg, hj⟩)
        · intro e' he'
          rw [h2out]
          exact b4 e heq
        · intro hok
          simp at hok
        · intro _ e' he'
          simp at he'
          rw [← he']
          exact h2st

/-- On an existing directory `flow_step` never raises. -/
lemma flow_step_never_err {o : Oracles} {a c : Json} {fs : FS}
    {res : Except PyErr Json} {fs2 : FS}
    (h : flow_step o a c fs = (res, fs2)) (hdir : fs.dirExists = true) :
    ∃ fo, res = .ok fo := by
  revert h
  unfold flow_step call_flowise
  rcases ht : a.truthy <;> simp [append_agent_log, hdir, ht]
  · intro h _
    exact ⟨.null, h.symm⟩
  · rcases o.flowise a c with e | j <;> simp [append_agent_log, hdir] <;>
      intro h _ <;> exact ⟨_, h.symm⟩

/-- A raising workflow engine yields the inline `{"error": str(e)}` object. -/
lemma flow_step_err_val {o : Oracles} {a c : Json} {fs : FS} {e : PyErr}
    {res : Except PyErr Json} {fs2 : FS}
    (h : flow_step o a c fs = (res, fs2)) (hdir : fs.dirExists = true)
    (ht : a.truthy = true) (hfl : ∀ x y, o.flowise x y = .error e) :
    res = .ok (.obj [("error", .str e.msg)]) := by
  revert h
  unfold flow_step call_flowise
  simp [append_agent_log, hdir, ht, hfl]
  intro h _
  exact h.symm

/-- With an existing directory, a well-formed `tool` member and an answering
LLM, the LLM-and-tail stage completes and writes the output document with
the given workflow value under `flowise`. -/
lemma llm_and_finish_ok (o : Oracles) (kvs : List (String × Json)) (flow_out : Json) (fs : FS)
    (hdir : fs.dirExists = true)
    (htool : (dictGet kvs "tool").truthy = false ∨ (dictGet kvs "tool").isObj = true)
    (gf : Json → Json) (hll : ∀ q, o.ollama q = .ok (gf q)) :
    (llm_and_finish o kvs flow_out fs).outcome = .ok () ∧
    (llm_and_finish o kvs flow_out fs).fs.state = some completedState ∧
    ∃ kv, (llm_and_finish o kvs flow_out fs).fs.output = some (.obj kv) ∧
      (∃ gen, jlookup kv "model_response" = some gen) ∧
      jlookup kv "flowise" = some flow_out := by
  obtain ⟨l1, l2, l3, l4, l5, l6⟩ := llm_and_finish_spec o kvs flow_out fs
  have hok := l6 hdir htool gf hll
  obtain ⟨hst, gen, kv, hou, hsh⟩ := l5 hok
  refine ⟨hok, hst, kv, hou, ⟨gen, ?_⟩, ?_⟩ <;>
    rcases hsh with h | ⟨rj, h⟩ | ⟨m, h⟩ <;> subst h <;> simp [jlookup]

/-- A normally answering workflow engine hands its document to the run. -/
lemma flow_step_ok_val {o : Oracles} {a c : Json} {fs : FS} {d : Json}
    {res : Except PyErr Json} {fs2 : FS}
    (h : flow_step o a c fs = (res, fs2)) (hdir : fs.dirExists = true)
    (ht : a.truthy = true) (hfl : ∀ x y, o.flowise x y = .ok d) :
    res = .ok d := by
  revert h
  unfold flow_step call_flowise
  simp [append_agent_log, hdir, ht, hfl]
  intro h _
  exact h.symm

/-- The prompt the LLM endpoint is called with, as a function of the payload
and the workflow value. -/
lemma llm_and_finish_llmPrompts (o : Oracles) (kvs : List (String × Json))
    (flow_out : Json) (fs : FS) (hdir : fs.dirExists = true) :
    (llm_and_finish o kvs flow_out fs).llmPrompts =
      [if flow_out.truthy && flow_out.isObj then
        Json.str (pyStr (pyOr (dictGet kvs "prompt")
            (pyOr (dictGet kvs "task") (.str "No task provided")))
          ++ "\n\nFlowise output context:\n" ++ dumps flow_out)
      else pyOr (dictGet kvs "prompt") (pyOr (dictGet kvs "task") (.str "No task provided"))] := by
  unfold llm_and_finish
  rw [append_agent_log_ok fs _ hdir]
  dsimp only
  repeat' split
  all_goals simp_all [finish_run_llmPrompts]

/-- The exception handler never calls the LLM. -/
lemma run_agent_background_llmPrompts (o : Oracles) (a : String) (fs : FS) :
    (run_agent_background o a fs).llmPrompts = (run_body o a fs).llmPrompts := by
  unfold run_agent_background
  dsimp only
  split
  · rfl
  next e heq =>
    split
    · rfl
    next fs1 heq2 =>
      split <;> rfl

/-! ### Claim theorems -/

/-- C1: for every agent whose job directory holds a valid `input.json` with
only a prompt string, if the LLM call returns normally (a non-null JSON
document), `run_agent_background` returns, `output.json` carries that
document as a non-null `model_response`, and `state.json` holds status
`completed`. -/
theorem C1_prompt_only_completes (o : Oracles) (a p : String) (fs : FS) (g : Json)
    (hdir : fs.dirExists = true)
    (hin : fs.input = some (.parsed (.obj [("prompt", .str p)])))
    (hll : ∀ q, o.ollama q = .ok g) (hg : g ≠ .null) :
    (run_agent_background o a fs).outcome = .ok () ∧
    (run_agent_background o a fs).fs.state = some completedState ∧
    ∃ kv, (run_agent_background o a fs).fs.output = some (.obj kv) ∧
      jlookup kv "model_response" = some g ∧ g ≠ .null := by
  simp [run_agent_background, run_body, llm_and_finish, finish_run, flow_step, tool_step,
    call_flowise, append_agent_log, write_agent_state, write_output, dictGet, dictGetD,
    jlookup, pyOr, Json.truthy, Json.isObj, hdir, hin, hll, completedState, hg]

/-- C1 witness: a concrete prompt-only job against a healthy LLM endpoint. -/
theorem C1_witness :
    (run_agent_background oraclesOk "a1" fsPromptOnly).outcome = .ok () ∧
    (run_agent_background oraclesOk "a1" fsPromptOnly).fs.state = some completedState ∧
    ∃ kv, (run_agent_background oraclesOk "a1" fsPromptOnly).fs.output = some (.obj kv) ∧
      jlookup kv "model_response" = some (.str "done") ∧ Json.str "done" ≠ .null :=
  C1_prompt_only_completes oraclesOk "a1" "summarize the inbox" fsPromptOnly (.str "done")
    rfl rfl (fun _ => rfl) (fun h => Json.noConfusion h)

/-- C2: on an existing job directory, a missing `input.json` makes the run
raise (the spec's `MissingInputError`, a `RuntimeError` in the code) with a
non-empty message, recorded in `state.json` as status `failed` with that
message as `error`; in general every failing run re-raises its exception
after writing the failed state carrying the exception's message. -/
theorem C2_failure_writes_failed_state (o : Oracles) (a : String) (fs : FS)
    (hdir : fs.dirExists = true) :
    (fs.input = none →
      (run_agent_background o a fs).outcome =
        .error (.runtimeError ("input.json missing for agent " ++ a)) ∧
      (run_agent_background o a fs).fs.state =
        some (failedState ("input.json missing for agent " ++ a)) ∧
      ("input.json missing for agent " ++ a) ≠ "") ∧
    (∀ e, (run_agent_background o a fs).outcome = .error e →
      (run_agent_background o a fs).fs.state = some (failedState e.msg)) := by
  refine ⟨?_, (run_agent_background_spec o a fs).2.2.2.2 hdir⟩
  intro hin
  have hout : (run_agent_background o a fs).outcome =
      .error (.runtimeError ("input.json missing for agent " ++ a)) := by
    simp [run_agent_background, run_body, append_agent_log, write_agent_state, hdir, hin,
      PyErr.msg]
  refine ⟨hout, ?_, by simp [String.ext_iff]⟩
  have := (run_agent_background_spec o a fs).2.2.2.2 hdir _ hout
  simpa [PyErr.msg] using this

/-- C3 stepping stone: the `try` body under a raising workflow engine. -/
lemma run_body_flow_err (o : Oracles) (a : String) (fs : FS)
    (kvs : List (String × Json)) (fid : Json) (e : PyErr)
    (hdir : fs.dirExists = true)
    (hin : fs.input = some (.parsed (.obj kvs)))
    (hfid : jlookup kvs "flow_id" = some fid) (hft : fid.truthy = true)
    (hfl : ∀ x y, o.flowise x y = .error e)
    (htool : (dictGet kvs "tool").truthy = false ∨ (dictGet kvs "tool").isObj = true)
    (gf : Json → Json) (hll : ∀ q, o.ollama q = .ok (gf q)) :
    (run_body o a fs).outcome = .ok () ∧
    (run_body o a fs).fs.state = some completedState ∧
    ∃ kv, (run_body o a fs).fs.output = some (.obj kv) ∧
      (∃ gen, jlookup kv "model_response" = some gen) ∧
      jlookup kv "flowise" = some (.obj [("error", .str e.msg)]) := by
  unfold run_body
  simp [append_agent_log, write_agent_state, hdir, hin, dictGet, hfid]
  split
  next e2 fsc heqf =>
    obtain ⟨fo, hfo⟩ := flow_step_never_err heqf (by simp)
    simp at hfo
  next flow_out fsc heqf =>
    have hval := flow_step_err_val heqf (by simp) hft hfl
    simp at hval
    subst hval
    obtain ⟨fd, -, -, -⟩ := flow_step_frame heqf
    simp at fd
    exact llm_and_finish_ok o kvs _ fsc fd htool gf hll

/-- C3: when the payload carries a (truthy) `flow_id` and the workflow
engine raises with message `str(e)`, the job does not fail: with the LLM
answering and a well-formed `tool` member it reaches the completed state and
`output.json`'s `flowise` field is the object `{"error": str(e)}`. -/
theorem C3_flowise_failure_recovered (o : Oracles) (a : String) (fs : FS)
    (kvs : List (String × Json)) (fid : Json) (e : PyErr)
    (hdir : fs.dirExists = true)
    (hin : fs.input = some (.parsed (.obj kvs)))
    (hfid : jlookup kvs "flow_id" = some fid) (hft : fid.truthy = true)
    (hfl : ∀ x y, o.flowise x y = .error e)
    (htool : (dictGet kvs "tool").truthy = false ∨ (dictGet kvs "tool").isObj = true)
    (gf : Json → Json) (hll : ∀ q, o.ollama q = .ok (gf q)) :
    (run_agent_background o a fs).outcome = .ok () ∧
    (run_agent_background o a fs).fs.state = some completedState ∧
    ∃ kv, (run_agent_background o a fs).fs.output = some (.obj kv) ∧
      (∃ gen, jlookup kv "model_response" = some gen) ∧
      jlookup kv "flowise" = some (.obj [("error", .str e.msg)]) := by
  have hb := run_body_flow_err o a fs kvs fid e hdir hin hfid hft hfl htool gf hll
  unfold run_agent_background
  dsimp only
  rw [hb.1]
  exact hb

/-- C3 witness: a concrete flow-requesting job against a down workflow
engine and a healthy LLM. -/
theorem C3_witness :
    (run_agent_background oraclesFlowDown "a3" fsFlow).outcome = .ok () ∧
    (run_agent_background oraclesFlowDown "a3" fsFlow).fs.state = some completedState ∧
    ∃ kv, (run_agent_background oraclesFlowDown "a3" fsFlow).fs.output = some (.obj kv) ∧
      (∃ gen, jlookup kv "model_response" = some gen) ∧
      jlookup kv "flowise" = some (.obj [("error", .str "connection refused")]) :=
  C3_flowise_failure_recovered oraclesFlowDown "a3" fsFlow
    [("prompt", .str "triage"), ("flow_id", .str "f1")] (.str "f1")
    (.other "connection refused") rfl rfl rfl rfl (fun _ _ => rfl) (Or.inl rfl)
    (fun _ => .str "done") (fun _ => rfl)

/-- C4 stepping stone: the tail when the requested adapter is missing. -/
lemma finish_run_tool_missing (o : Oracles) (kvs tkvs : List (String × Json))
    (nm : String) (flow_out gen : Json) (fs : FS) (hdir : fs.dirExists = true)
    (htool : dictGet kvs "tool" = .obj tkvs) (htt : (Json.obj tkvs).truthy = true)
    (hname : dictGet tkvs "name" = .str nm) (hex : o.adapterExists nm = false) :
    (finish_run o kvs flow_out gen fs).outcome = .ok () ∧
    (finish_run o kvs flow_out gen fs).fs.state = some completedState ∧
    ∃ kv, (finish_run o kvs flow_out gen fs).fs.output = some (.obj kv) ∧
      jlookup kv "adapter_error" = some (.str ("Adapter not found: " ++ nm)) ∧
      jlookup kv "adapter_result" = none := by
  simp [finish_run, tool_step, run_tool_adapter, append_agent_log, write_output,
    write_agent_state, hdir, htool, htt, hname, hex, jlookup, PyErr.msg]

/-- C4 stepping stone: the LLM-and-tail stage when the adapter is missing. -/
lemma llm_tool_missing (o : Oracles) (kvs tkvs : List (String × Json))
    (nm : String) (flow_out : Json) (fs : FS) (hdir : fs.dirExists = true)
    (htool : dictGet kvs "tool" = .obj tkvs) (htt : (Json.obj tkvs).truthy = true)
    (hname : dictGet tkvs "name" = .str nm) (hex : o.adapterExists nm = false)
    (gf : Json → Json) (hll : ∀ q, o.ollama q = .ok (gf q)) :
    (llm_and_finish o kvs flow_out fs).outcome = .ok () ∧
    (llm_and_finish o kvs flow_out fs).fs.state = some completedState ∧
    ∃ kv, (llm_and_finish o kvs flow_out fs).fs.output = some (.obj kv) ∧
      jlookup kv "adapter_error" = some (.str ("Adapter not found: " ++ nm)) ∧
      jlookup kv "adapter_result" = none := by
  unfold llm_and_finish
  simp [append_agent_log, hdir, hll]
  exact finish_run_tool_missing o kvs tkvs nm flow_out _ _ (by simp) htool htt hname hex

/-- C4 stepping stone: the `try` body when the adapter is missing. -/
lemma run_body_tool_missing (o : Oracles) (a : String) (fs : FS)
    (kvs tkvs : List (String × Json)) (nm : String)
    (hdir : fs.dirExists = true)
    (hin : fs.input = some (.parsed (.obj kvs)))
    (htool : dictGet kvs "tool" = .obj tkvs) (htt : (Json.obj tkvs).truthy = true)
    (hname : dictGet tkvs "name" = .str nm) (hex : o.adapterExists nm = false)
    (gf : Json → Json) (hll : ∀ q, o.ollama q = .ok (gf q)) :
    (run_body o a fs).outcome = .ok () ∧
    (run_body o a fs).fs.state = some completedState ∧
    ∃ kv, (run_body o a fs).fs.output = some (.obj kv) ∧
      jlookup kv "adapter_error" = some (.str ("Adapter not found: " ++ nm)) ∧
      jlookup kv "adapter_result" = none := by
  unfold run_body
  simp [append_agent_log, write_agent_state, hdir, hin]
  split
  next e2 fsc heqf =>
    obtain ⟨fo, hfo⟩ := flow_step_never_err heqf (by simp)
    simp at hfo
  next flow_out fsc heqf =>
    obtain ⟨fd, -, -, -⟩ := flow_step_frame heqf
    simp at fd
    exact llm_tool_missing o kvs tkvs nm flow_out fsc fd htool htt hname hex gf hll

/-- C4: a payload requesting a tool whose adapter path does not exist still
completes, `output.json` carries `adapter_error` and no `adapter_result`;
and no completed run ever writes an `output.json` carrying both
`adapter_result` and `adapter_error`. -/
theorem C4_missing_adapter (o : Oracles) (a : String) (fs : FS)
    (kvs tkvs : List (String × Json)) (nm : String)
    (hdir : fs.dirExists = true)
    (hin : fs.input = some (.parsed (.obj kvs)))
    (htool : dictGet kvs "tool" = .obj tkvs) (htt : (Json.obj tkvs).truthy = true)
    (hname : dictGet tkvs "name" = .str nm) (hex : o.adapterExists nm = false)
    (gf : Json → Json) (hll : ∀ q, o.ollama q = .ok (gf q)) :
    ((run_agent_background o a fs).outcome = .ok () ∧
     (run_agent_background o a fs).fs.state = some completedState ∧
     ∃ kv, (run_agent_background o a fs).fs.output = some (.obj kv) ∧
       jlookup kv "adapter_error" = some (.str ("Adapter not found: " ++ nm)) ∧
       jlookup kv "adapter_result" = none) ∧
    (∀ o2 a2 fs2, (run_agent_background o2 a2 fs2).outcome = .ok () →
      ∀ kv, (run_agent_background o2 a2 fs2).fs.output = some (.obj kv) →
        ¬((jlookup kv "adapter_result").isSome = true ∧
          (jlookup kv "adapter_error").isSome = true)) := by
  constructor
  · have hb := run_body_tool_missing o a fs kvs tkvs nm hdir hin htool htt hname hex gf hll
    unfold run_agent_background
    dsimp only
    rw [hb.1]
    exact hb
  · intro o2 a2 fs2 hok kv hout
    obtain ⟨-, -, -, hconj4, -⟩ := run_agent_background_spec o2 a2 fs2
    obtain ⟨-, gen, fo, kv2, hout2, hsh⟩ := hconj4 hok
    rw [hout] at hout2
    simp at hout2
    subst hout2
    rcases hsh with h | ⟨rj, h⟩ | ⟨m, h⟩ <;> subst h <;> simp [jlookup]

/-- C4 witness: a concrete tool-requesting job whose adapter is absent. -/
theorem C4_witness :
    ((run_agent_background oraclesOk "a4" fsTool).outcome = .ok () ∧
     (run_agent_background oraclesOk "a4" fsTool).fs.state = some completedState ∧
     ∃ kv, (run_agent_background oraclesOk "a4" fsTool).fs.output = some (.obj kv) ∧
       jlookup kv "adapter_error" = some (.str ("Adapter not found: " ++ "mailer")) ∧
       jlookup kv "adapter_result" = none) ∧
    (∀ o2 a2 fs2, (run_agent_background o2 a2 fs2).outcome = .ok () →
      ∀ kv, (run_agent_background o2 a2 fs2).fs.output = some (.obj kv) →
        ¬((jlookup kv "adapter_result").isSome = true ∧
          (jlookup kv "adapter_error").isSome = true)) :=
  C4_missing_adapter oraclesOk "a4" fsTool
    [("prompt", .str "send"), ("tool", .obj [("name", .str "mailer")])]
    [("name", .str "mailer")] "mailer" rfl rfl rfl rfl rfl rfl
    (fun _ => .str "done") (fun _ => rfl)

/-- C8: the prompt sent to the LLM endpoint is the task text — the payload's
(truthy) `prompt` field, else its `task` field — and when a workflow output
dictionary is present, whether the engine's own answer or the `{"error": …}`
object recorded on its failure, that dictionary's JSON serialization is
concatenated after the task text (behind the fixed context header). -/
theorem C8_prompt_construction (o : Oracles) (a : String) (fs : FS)
    (kvs : List (String × Json))
    (hdir : fs.dirExists = true)
    (hin : fs.input = some (.parsed (.obj kvs))) :
    (∀ p, jlookup kvs "prompt" = some (.str p) → p ≠ "" →
      jlookup kvs "flow_id" = none →
      (run_agent_background o a fs).llmPrompts = [.str p]) ∧
    (∀ p fid e, jlookup kvs "prompt" = some (.str p) → p ≠ "" →
      jlookup kvs "flow_id" = some fid → fid.truthy = true →
      (∀ x y, o.flowise x y = .error e) →
      (run_agent_background o a fs).llmPrompts =
        [.str (p ++ "\n\nFlowise output context:\n" ++
          dumps (.obj [("error", .str e.msg)]))]) ∧
    (∀ p fid d, jlookup kvs "prompt" = some (.str p) → p ≠ "" →
      jlookup kvs "flow_id" = some fid → fid.truthy = true →
      (∀ x y, o.flowise x y = .ok d) → d.truthy = true → d.isObj = true →
      (run_agent_background o a fs).llmPrompts =
        [.str (p ++ "\n\nFlowise output context:\n" ++ dumps d)]) ∧
    (∀ t, jlookup kvs "prompt" = none → jlookup kvs "task" = some (.str t) → t ≠ "" →
      jlookup kvs "flow_id" = none →
      (run_agent_background o a fs).llmPrompts = [.str t]) := by
  refine ⟨?_, ?_, ?_, ?_⟩
  · intro p hp hpne hnf
    rw [run_agent_background_llmPrompts]
    unfold run_body
    simp [append_agent_log, write_agent_state, hdir, hin, flow_step, dictGet, hnf,
      llm_and_finish_llmPrompts, pyOr, Json.truthy, Json.isObj, hp, hpne]
  · intro p fid e hp hpne hfid hft hfl
    rw [run_agent_background_llmPrompts]
    unfold run_body
    simp [append_agent_log, write_agent_state, hdir, hin, dictGet, hfid]
    split
    next e2 fsc heqf =>
      obtain ⟨fo, hfo⟩ := flow_step_never_err heqf (by simp)
      simp at hfo
    next flow_out fsc heqf =>
      have hval := flow_step_err_val heqf (by simp) hft hfl
      simp at hval
      subst hval
      obtain ⟨fd, -, -, -⟩ := flow_step_frame heqf
      simp at fd
      rw [llm_and_finish_llmPrompts o kvs _ fsc fd]
      simp [pyOr, pyStr, Json.truthy, Json.isObj, dictGet, hp, hpne]
  · intro p fid d hp hpne hfid hft hfl hdt hdo
    rw [run_agent_background_llmPrompts]
    unfold run_body
    simp [append_agent_log, write_agent_state, hdir, hin, dictGet, hfid]
    split
    next e2 fsc heqf =>
      obtain ⟨fo, hfo⟩ := flow_step_never_err heqf (by simp)
      simp at hfo
    next flow_out fsc heqf =>
      have hval := flow_step_ok_val heqf (by simp) hft hfl
      simp at hval
      subst hval
      obtain ⟨fd, -, -, -⟩ := flow_step_frame heqf
      simp at fd
      rw [llm_and_finish_llmPrompts o kvs _ fsc fd]
      have hps : (Json.str p).truthy = true := by simp [Json.truthy, hpne]
      simp [pyOr, pyStr, hdt, hdo, dictGet, hp, hps]
  · intro t hp htask htne hnf
    rw [run_agent_background_llmPrompts]
    unfold run_body
    simp [append_agent_log, write_agent_state, hdir, hin, flow_step, dictGet, hnf,
      llm_and_finish_llmPrompts, pyOr, Json.truthy, Json.isObj, hp, htask, htne]

/-- C8 witness: the prompt-only job sends its prompt verbatim; the
flow-requesting job against the down workflow engine sends the prompt with
the serialized error object appended. -/
theorem C8_witness :
    (run_agent_background oraclesOk "a8" fsPromptOnly).llmPrompts =
      [.str "summarize the inbox"] ∧
    (run_agent_background oraclesFlowDown "a8" fsFlow).llmPrompts =
      [.str ("triage" ++ "\n\nFlowise output context:\n" ++
        dumps (.obj [("error", .str "connection refused")]))] :=
  ⟨(C8_prompt_construction oraclesOk "a8" fsPromptOnly
      [("prompt", .str "summarize the inbox")] rfl rfl).1
      "summarize the inbox" rfl (by decide) rfl,
   (C8_prompt_construction oraclesFlowDown "a8" fsFlow
      [("prompt", .str "triage"), ("flow_id", .str "f1")] rfl rfl).2.1
      "triage" (.str "f1") (.other "connection refused") rfl (by decide) rfl rfl
      (fun _ _ => rfl)⟩

/-- C5: every `state.json` document the runner ever writes has a status
among `running`/`completed`/`failed`, a binary progress equal to 100 exactly
when completed, and an `error` member only when failed. -/
theorem C5_state_write_invariant (o : Oracles) (a : String) (fs : FS) :
    ∀ j ∈ (run_agent_background o a fs).stateWrites, stateWriteOk j = true := by
  intro j hj
  obtain ⟨-, h2, -, -, -⟩ := run_agent_background_spec o a fs
  rcases h2 j hj with h | h | ⟨m, h⟩ <;> subst h <;>
    simp [stateWriteOk, runningState, completedState, failedState, jlookup]

/-- C5 witness: the running state is among the writes of a concrete
successful run and satisfies the invariant. -/
theorem C5_witness : stateWriteOk runningState = true :=
  C5_state_write_invariant oraclesOk "a5" fsPromptOnly runningState
    (List.mem_cons_self _ _)

/-- C9: a run that raises does not write or modify `output.json` (nor
`input.json`): whatever those files held before the run, they hold after. -/
theorem C9_failure_leaves_output_untouched (o : Oracles) (a : String) (fs : FS) (e : PyErr)
    (h : (run_agent_background o a fs).outcome = .error e) :
    (run_agent_background o a fs).fs.output = fs.output ∧
    (run_agent_background o a fs).fs.input = fs.input := by
  obtain ⟨h1, -, h3, -, -⟩ := run_agent_background_spec o a fs
  exact ⟨h3 e h, h1⟩

/-- C9 witness: the concrete missing-input failure leaves output and input
untouched. -/
theorem C9_witness :
    (run_agent_background oraclesOk "a9" fsNoInput).fs.output = fsNoInput.output ∧
    (run_agent_background oraclesOk "a9" fsNoInput).fs.input = fsNoInput.input :=
  C9_failure_leaves_output_untouched oraclesOk "a9" fsNoInput
    (.runtimeError ("input.json missing for agent " ++ "a9")) rfl

/-- C10: when the job directory does not exist, `run_agent_background` in
`tasks.py` raises before recording anything: the initial log append fails,
the handler's own attempt to write the failed state raises in its place, no
state document is ever written, and the directory contents are unchanged. -/
theorem C10_missing_dir_records_nothing (o : Oracles) (a : String) (fs : FS)
    (hdir : fs.dirExists = false) :
    (run_agent_background o a fs).fs = fs ∧
    (run_agent_background o a fs).stateWrites = [] ∧
    (run_agent_background o a fs).outcome =
      .error (.fileNotFoundError "No such file or directory: state.json") := by
  simp [run_agent_background, run_body, append_agent_log, write_agent_state, hdir]

/-- C10 witness: a concrete absent job directory. -/
theorem C10_witness :
    (run_agent_background oraclesOk "a10" fsNoDir).fs = fsNoDir ∧
    (run_agent_background oraclesOk "a10" fsNoDir).stateWrites = [] ∧
    (run_agent_background oraclesOk "a10" fsNoDir).outcome =
      .error (.fileNotFoundError "No such file or directory: state.json") :=
  C10_missing_dir_records_nothing oraclesOk "a10" fsNoDir rfl

/-- C2 witness: a concrete job directory with no `input.json`. -/
theorem C2_witness :
    ((fsNoInput.input = none →
      (run_agent_background oraclesOk "a2" fsNoInput).outcome =
        .error (.runtimeError ("input.json missing for agent " ++ "a2")) ∧
      (run_agent_background oraclesOk "a2" fsNoInput).fs.state =
        some (failedState ("input.json missing for agent " ++ "a2")) ∧
      ("input.json missing for agent " ++ "a2") ≠ "") ∧
    (∀ e, (run_agent_background oraclesOk "a2" fsNoInput).outcome = .error e →
      (run_agent_background oraclesOk "a2" fsNoInput).fs.state = some (failedState e.msg))) :=
  C2_failure_writes_failed_state oraclesOk "a2" fsNoInput rfl

/-- C6: for an NDJSON stream whose (non-empty) lines each parse to a JSON
object, the combined text assembled by `call_ollama` is the concatenation,
in order, of the `response` string fields of the parsed lines; in
particular the two lines `{"response":"Hel"}` and `{"response":"lo"}`
combine to `"Hello"`. -/
theorem C6_ndjson_concatenation :
    (∀ lines : List (String × Option Json),
      (∀ l ∈ lines, l.1 ≠ "" ∧ ∃ kvs, l.2 = some (.obj kvs)) →
      ndjson_combined lines = String.join (responseChunks lines)) ∧
    ndjson_combined [(rawHel, some (.obj [("response", .str "Hel")])),
                     (rawLo, some (.obj [("response", .str "lo")]))] = "Hello" := by
  constructor
  · intro lines h
    unfold ndjson_combined responseChunks
    congr 1
    induction lines with
    | nil => rfl
    | cons l ls ih =>
      obtain ⟨hne, kvs, hkv⟩ := h l (by simp)
      have ih2 := ih fun x hx => h x (by simp [hx])
      rcases l with ⟨raw, pr⟩
      simp only [List.flatMap_cons, ih2]
      simp at hkv
      subst hkv
      simp [linePieces, hne]
  · rfl

/-- C6 witness: the general part applied to the two concrete lines. -/
theorem C6_witness :
    ndjson_combined [(rawHel, some (.obj [("response", .str "Hel")])),
                     (rawLo, some (.obj [("response", .str "lo")]))] =
      String.join (responseChunks [(rawHel, some (.obj [("response", .str "Hel")])),
                                   (rawLo, some (.obj [("response", .str "lo")]))]) :=
  C6_ndjson_concatenation.1
    [(rawHel, some (.obj [("response", .str "Hel")])),
     (rawLo, some (.obj [("response", .str "lo")]))]
    (fun l hl => by
      rcases List.mem_cons.mp hl with h | h
      · subst h
        exact ⟨by decide, [("response", Json.str "Hel")], rfl⟩
      · rcases List.mem_cons.mp h with h2 | h2
        · subst h2
          exact ⟨by decide, [("response", Json.str "lo")], rfl⟩
        · simp at h2)

/-- C7 counterexample: a request body that contains an `agent_id` member
(the empty string — present, not missing) is answered with `400`, not the
claimed `202`. -/
theorem C7_counterexample :
    server_run_agent (some (.obj [("agent_id", .str "")])) =
      .resp 400 (.obj [("error", .str "agent_id required")]) ∧
    server_run_agent (some (.obj [("agent_id", .str "")])) ≠
      .resp 202 (.obj [("status", .str "started"), ("agent_id", .str "")]) := by
  constructor
  · rfl
  · intro h
    simp [server_run_agent, dictGet, jlookup, Json.truthy] at h

/-- C7 (amended): a request body whose `agent_id` is truthy (for example a
non-empty string) is answered `202 {status:"started", agent_id}` immediately;
a missing or falsy `agent_id` — including the empty string — and an absent
or unparseable body are answered `400` with an error body. -/
theorem C7_start_endpoint (kvs : List (String × Json)) :
    ((dictGet kvs "agent_id").truthy = true →
      server_run_agent (some (.obj kvs)) =
        .resp 202 (.obj [("status", .str "started"), ("agent_id", dictGet kvs "agent_id")])) ∧
    ((dictGet kvs "agent_id").truthy = false →
      server_run_agent (some (.obj kvs)) =
        .resp 400 (.obj [("error", .str "agent_id required")])) ∧
    server_run_agent none = .resp 400 (.obj [("error", .str "agent_id required")]) := by
  refine ⟨?_, ?_, rfl⟩ <;> intro h <;>
    rcases kvs with _ | ⟨⟨k, v⟩, rest⟩ <;>
    simp [server_run_agent, dictGet, jlookup, Json.truthy] at h ⊢ <;>
    simp [h]

/-- C7 witness: a present non-empty `agent_id` is accepted with 202; an
empty body is refused with 400. -/
theorem C7_witness :
    server_run_agent (some (.obj [("agent_id", .str "a7")])) =
      .resp 202 (.obj [("status", .str "started"), ("agent_id", .str "a7")]) ∧
    server_run_agent (some (.obj [])) =
      .resp 400 (.obj [("error", .str "agent_id required")]) :=
  ⟨(C7_start_endpoint [("agent_id", .str "a7")]).1 rfl,
   (C7_start_endpoint []).2.1 rfl⟩

end MailAssistant
